import Mathlib

/-!
Verification development for the autogenerate module of the alembic
repository (alembic/autogenerate.py).  The Python source is shallowly
embedded below: dictionaries become records or association-list lookups,
Python sets of strings become deduplicated lists, the pluggable
dialect-specific comparison predicates become function-valued fields of
the context record, and logging calls (which do not affect the computed
diffs or rendered commands) are dropped.  The dialect compilation of a
server-default expression is an external collaborator; an expression
default therefore carries its compiled text directly.  The mutation of
the shared imports set performed while rendering dialect-specific types
is not modelled (import/templating glue is outside the compared core);
rendering is a pure function of its arguments.
-/

namespace Alembic

/-- A SQLAlchemy type object as far as the autogenerate core inspects it:
its Python repr text, its defining module path (used by the dialect-aware
type renderer), and whether its type affinity is the unresolved NullType. -/
structure ColType where
  reprStr : String
  module : String
  isNullAffinity : Bool
deriving DecidableEq

/-- The argument wrapped by a DefaultClause: either a plain string literal
or a server-side expression (carried here as its dialect-compiled text). -/
inductive ClauseArg where
  | str (s : String)
  | expr (compiled : String)
deriving DecidableEq

/-- A server-default value: a DefaultClause wrapping an argument, a bare
string, or some other (unrenderable) object. -/
inductive SDefault where
  | clause (arg : ClauseArg)
  | str (s : String)
  | other
deriving DecidableEq

/-- Python truthiness of a possibly-absent default value: None and the
empty string are falsy, every other default object is truthy. -/
def pyTruthyDefaultOpt : Option SDefault → Bool
  | none => false
  | some (SDefault.str s) => !s.isEmpty
  | some (SDefault.clause _) => true
  | some SDefault.other => true

/-- Python truthiness of a possibly-absent string (used for constraint
names): None and the empty string are falsy. -/
def pyTruthyStrOpt : Option String → Bool
  | none => false
  | some s => !s.isEmpty

/-- An observed column record as returned by the schema introspector:
name, type, nullable flag (None when unknown) and default. -/
structure ConnCol where
  name : String
  type : ColType
  nullable : Option Bool
  default : Option SDefault
deriving DecidableEq

/-- A declared column from the metadata object graph (also used for the
column reconstructed from an observed record when a column is removed). -/
structure MetaCol where
  name : String
  type : ColType
  nullable : Option Bool
  server_default : Option SDefault
deriving DecidableEq

/-- A table constraint as far as the constraint renderers inspect it. -/
inductive SConstraint where
  | primaryKey (name : Option String) (colKeys : List String)
  | foreignKey (name : Option String) (cols : List String) (refcols : List String)
  | check (name : Option String)
  | otherCons
deriving DecidableEq

/-- A declared table: name, ordered columns, constraints. -/
structure MetaTable where
  name : String
  cols : List MetaCol
  constraints : List SConstraint
deriving DecidableEq

/-- The declared schema (the target MetaData object): its table graph. -/
structure Metadata where
  tables : List MetaTable
deriving DecidableEq

/-- The schema introspector surface used by the core: the list of table
names, the column records per table, and the data with which a dropped
table is reflected on demand. -/
structure Inspector where
  table_names : List String
  columns : String → List ConnCol
  reflectCols : String → List MetaCol
  reflectConstraints : String → List SConstraint

/-- Reflecting a table materialises a table descriptor whose name is the
requested name, as schema.Table(tname, removal_metadata) does. -/
def reflectTable (insp : Inspector) (tname : String) : MetaTable :=
  { name := tname
    cols := insp.reflectCols tname
    constraints := insp.reflectConstraints tname }

/-- The autogen_context dictionary: module-path rendering options plus the
two pluggable dialect comparison predicates reached through the migration
context. -/
structure AutogenContext where
  sqlalchemy_module_pfx : Option String
  alembic_module_pfx : Option String
  compare_type : ConnCol → MetaCol → Bool
  compare_server_default : ConnCol → MetaCol → Option String → Bool

def _sqlalchemy_autogenerate_pfx (ctx : AutogenContext) : String :=
  ctx.sqlalchemy_module_pfx.getD ""

def _alembic_autogenerate_pfx (ctx : AutogenContext) : String :=
  ctx.alembic_module_pfx.getD ""

/-- Python repr of a short identifier string. -/
def pyRepr (s : String) : String := "'" ++ s ++ "'"

/-- Python repr of a boolean. -/
def pyReprBool (b : Bool) : String := if b then "True" else "False"

/-- Python str() of an optional string, as used by percent-s formatting:
None prints as the text None. -/
def optStr : Option String → String
  | some s => s
  | none => "None"

/-- Python sorted() on strings. -/
def sortStrings (l : List String) : List String :=
  List.insertionSort (fun a b => a ≤ b) l

/-- A Python set of strings, modelled as a deduplicated list; the list
order stands for the (deterministic, implementation-defined) iteration
order of the set. -/
def pySet (l : List String) : List String := l.dedup

/-- Last-writer-wins association lookup, matching the dict comprehensions
dict((rec name, rec) for rec in recs) of the source. -/
def lookupLast {α : Type} (nameOf : α → String) (l : List α) (n : String) : Option α :=
  l.foldl (fun acc x => if nameOf x == n then some x else acc) none

def dummyColType : ColType :=
  { reprStr := "NullType()", module := "sqlalchemy.types", isNullAffinity := true }

/-- Observed-column dict lookup (total; the fallback is never reached when
the name is a key, which every use below guarantees). -/
def lookupConnColD (l : List ConnCol) (n : String) : ConnCol :=
  (lookupLast (fun c => c.name) l n).getD
    { name := n, type := dummyColType, nullable := none, default := none }

/-- Declared-column dict lookup (total, same proviso). -/
def lookupMetaColD (l : List MetaCol) (n : String) : MetaCol :=
  (lookupLast (fun c => c.name) l n).getD
    { name := n, type := dummyColType, nullable := none, server_default := none }

/-- metadata.tables dict lookup by table name (total, same proviso). -/
def lookupTable (md : Metadata) (n : String) : MetaTable :=
  (lookupLast (fun t => t.name) md.tables n).getD
    { name := n, cols := [], constraints := [] }

/-- _render_server_default: a DefaultClause is unwrapped to its string or
compiled-expression text, a string has one leading and one trailing quote
character stripped and is requoted, anything else renders as None. -/
def _render_server_default (d : Option SDefault) (_ctx : AutogenContext) : Option String :=
  let unwrapped : Option String :=
    match d with
    | some (SDefault.clause (ClauseArg.str s)) => some s
    | some (SDefault.clause (ClauseArg.expr s)) => some s
    | some (SDefault.str s) => some s
    | some SDefault.other => none
    | none => none
  match unwrapped with
  | some s =>
    let s1 := if s.startsWith "'" then s.drop 1 else s
    let s2 := if s1.endsWith "'" then s1.dropRight 1 else s1
    some ("'" ++ s2 ++ "'")
  | none => none

/-- _repr_type: a type from a sqlalchemy.dialects submodule renders as
dialectname.repr, anything else as the sqlalchemy module path text
followed by the repr; the absent type renders as the repr of None. -/
def _repr_type (pfx : String) (t : Option ColType) (_ctx : AutogenContext) : String :=
  match t with
  | none => pfx ++ "None"
  | some ty =>
    if ty.module.startsWith "sqlalchemy.dialects" then
      let dname := (ty.module.drop "sqlalchemy.dialects.".length).takeWhile
        (fun c => c.isAlphanum || c == '_')
      dname ++ "." ++ ty.reprStr
    else
      pfx ++ ty.reprStr

/-- _render_column. -/
def _render_column (column : MetaCol) (ctx : AutogenContext) : String :=
  let opts : List (String × String) :=
    (if pyTruthyDefaultOpt column.server_default then
       [("server_default", optStr (_render_server_default column.server_default ctx))]
     else []) ++
    (match column.nullable with
     | some b => [("nullable", pyReprBool b)]
     | none => [])
  _sqlalchemy_autogenerate_pfx ctx ++ "Column(" ++ pyRepr column.name ++ ", " ++
    _repr_type (_sqlalchemy_autogenerate_pfx ctx) (some column.type) ctx ++ ", " ++
    String.intercalate ", " (opts.map (fun p => p.1 ++ "=" ++ p.2)) ++ ")"

/-- _render_primary_key. -/
def _render_primary_key (name : Option String) (colKeys : List String)
    (ctx : AutogenContext) : String :=
  _sqlalchemy_autogenerate_pfx ctx ++ "PrimaryKeyConstraint(" ++
    String.intercalate ", "
      (colKeys.map pyRepr ++
       (if pyTruthyStrOpt name then ["name=" ++ pyRepr (name.getD "")] else [])) ++ ")"

/-- _render_foreign_key. -/
def _render_foreign_key (name : Option String) (cols refcols : List String)
    (ctx : AutogenContext) : String :=
  _sqlalchemy_autogenerate_pfx ctx ++ "ForeignKeyConstraint([" ++
    String.intercalate ", " (cols.map pyRepr) ++ "], [" ++
    String.intercalate ", " (refcols.map pyRepr) ++ "], " ++
    String.intercalate ", "
      (if pyTruthyStrOpt name then ["name=" ++ pyRepr (name.getD "")] else []) ++ ")"

/-- _render_check_constraint. -/
def _render_check_constraint (_name : Option String) (ctx : AutogenContext) : String :=
  _sqlalchemy_autogenerate_pfx ctx ++ "CheckConstraint('TODO')"

/-- _render_constraint: dispatch through the renderer table; a constraint
kind with no renderer yields None. -/
def _render_constraint (cons : SConstraint) (ctx : AutogenContext) : Option String :=
  match cons with
  | SConstraint.primaryKey name colKeys => some (_render_primary_key name colKeys ctx)
  | SConstraint.foreignKey name cols refcols => some (_render_foreign_key name cols refcols ctx)
  | SConstraint.check name => some (_render_check_constraint name ctx)
  | SConstraint.otherCons => none

/-- _add_table. -/
def _add_table (table : MetaTable) (ctx : AutogenContext) : String :=
  _alembic_autogenerate_pfx ctx ++ "create_table(" ++ pyRepr table.name ++ ",\n" ++
    String.intercalate ",\n"
      (table.cols.map (fun col => _render_column col ctx) ++
       sortStrings ((table.constraints.map (fun c => _render_constraint c ctx)).filterMap id)) ++
    "\n)"

/-- _drop_table. -/
def _drop_table (table : MetaTable) (ctx : AutogenContext) : String :=
  _alembic_autogenerate_pfx ctx ++ "drop_table(" ++ pyRepr table.name ++ ")"

/-- _add_column. -/
def _add_column (tname : String) (column : MetaCol) (ctx : AutogenContext) : String :=
  _alembic_autogenerate_pfx ctx ++ "add_column(" ++ pyRepr tname ++ ", " ++
    _render_column column ctx ++ ")"

/-- _drop_column. -/
def _drop_column (tname : String) (column : MetaCol) (ctx : AutogenContext) : String :=
  _alembic_autogenerate_pfx ctx ++ "drop_column(" ++ pyRepr tname ++ ", " ++
    pyRepr column.name ++ ")"

/-- One attribute-level modify diff tuple.  Each constructor stores, in
order: table name, column name, the existing-context values placed in the
keyword dictionary of the diff, the old (observed) value and the new (declared)
value. -/
inductive ModifyDiff where
  | type (tname cname : String) (existing_nullable : Option Bool)
      (existing_server_default : Option SDefault) (old new : ColType)
  | nullable (tname cname : String) (existing_type : ColType)
      (existing_server_default : Option SDefault) (old new : Option Bool)
  | dflt (tname cname : String) (existing_nullable : Option Bool)
      (existing_type : ColType) (old new : Option SDefault)
deriving DecidableEq

def ModifyDiff.tname : ModifyDiff → String
  | .type t _ _ _ _ _ => t
  | .nullable t _ _ _ _ _ => t
  | .dflt t _ _ _ _ _ => t

def ModifyDiff.cname : ModifyDiff → String
  | .type _ c _ _ _ _ => c
  | .nullable _ c _ _ _ _ => c
  | .dflt _ c _ _ _ _ => c

def ModifyDiff.isType : ModifyDiff → Bool
  | .type _ _ _ _ _ _ => true
  | _ => false

def ModifyDiff.isNullable : ModifyDiff → Bool
  | .nullable _ _ _ _ _ _ => true
  | _ => false

def ModifyDiff.isDefault : ModifyDiff → Bool
  | .dflt _ _ _ _ _ _ => true
  | _ => false

/-- The keyword dictionary stored in slot 3 of a modify diff tuple: which
of the three existing keys are present, and their values. -/
structure DiffKw where
  existing_type : Option ColType
  existing_nullable : Option (Option Bool)
  existing_server_default : Option (Option SDefault)
deriving DecidableEq

/-- The keyword dictionary literal written at each diff construction site. -/
def ModifyDiff.diffKw : ModifyDiff → DiffKw
  | .type _ _ en esd _ _ =>
    { existing_type := none, existing_nullable := some en,
      existing_server_default := some esd }
  | .nullable _ _ et esd _ _ =>
    { existing_type := some et, existing_nullable := none,
      existing_server_default := some esd }
  | .dflt _ _ en et _ _ =>
    { existing_type := some et, existing_nullable := some en,
      existing_server_default := none }

/-- A diff entry of the top-level diff list: a structural tuple or a
composite per-column group (the Python list of modify tuples). -/
inductive Diff where
  | add_table (t : MetaTable)
  | remove_table (t : MetaTable)
  | add_column (tname : String) (c : MetaCol)
  | remove_column (tname : String) (c : MetaCol)
  | group (ds : List ModifyDiff)
deriving DecidableEq

/-- The add/remove tag of a structural diff, split at the underscore as
cmd_type.split of the source does (the tags are add_table, remove_table,
add_column, remove_column). -/
def Diff.adddropParts : Diff → String × String
  | .add_table _ => ("add", "table")
  | .remove_table _ => ("remove", "table")
  | .add_column _ _ => ("add", "column")
  | .remove_column _ _ => ("remove", "column")
  | .group _ => ("", "")

/-- Does this diff concern the table named n? -/
def Diff.mentions (n : String) : Diff → Bool
  | .add_table t => t.name == n
  | .remove_table t => t.name == n
  | .add_column tn _ => tn == n
  | .remove_column tn _ => tn == n
  | .group ds => ds.any (fun d => d.tname == n)

/-- Is this diff a remove_table diff for the table named n? -/
def Diff.isRemovalOf (n : String) : Diff → Bool
  | .remove_table t => t.name == n
  | _ => false

/-!  Element comparison.  Each comparator returns the list of diffs it
appends (empty or a singleton); logging calls of the source are dropped. -/

/-- _compare_nullable: a diff is emitted iff the observed flag is not
identical to the declared flag (identity on the True/False/None
singletons, i.e. equality on Option Bool). -/
def _compare_nullable (tname cname : String) (conn_col : ConnCol)
    (metadata_col_nullable : Option Bool) (_ctx : AutogenContext) : List ModifyDiff :=
  let conn_col_nullable := conn_col.nullable
  if conn_col_nullable ≠ metadata_col_nullable then
    [ModifyDiff.nullable tname cname conn_col.type conn_col.default
      conn_col_nullable metadata_col_nullable]
  else []

/-- _compare_type: skip (log only) when the type affinity of either side is the
unresolved NullType, otherwise delegate to the pluggable predicate. -/
def _compare_type (tname cname : String) (conn_col : ConnCol)
    (metadata_col : MetaCol) (ctx : AutogenContext) : List ModifyDiff :=
  let conn_type := conn_col.type
  let metadata_type := metadata_col.type
  if conn_type.isNullAffinity then []
  else if metadata_type.isNullAffinity then []
  else if ctx.compare_type conn_col metadata_col then
    [ModifyDiff.type tname cname conn_col.nullable conn_col.default
      conn_type metadata_type]
  else []

/-- _compare_server_default: short-circuit when both sides have no
default, otherwise render the declared default and delegate to the
pluggable predicate. -/
def _compare_server_default (tname cname : String) (conn_col : ConnCol)
    (metadata_col : MetaCol) (ctx : AutogenContext) : List ModifyDiff :=
  let metadata_default := metadata_col.server_default
  let conn_col_default := conn_col.default
  match conn_col_default, metadata_default with
  | none, none => []
  | _, _ =>
    let rendered_metadata_default := _render_server_default metadata_default ctx
    if ctx.compare_server_default conn_col metadata_col rendered_metadata_default then
      [ModifyDiff.dflt tname cname conn_col.nullable conn_col.type
        conn_col_default metadata_default]
    else []

/-- The per-column body of the loop over columns present on both sides:
the three attribute comparators run in the fixed order type, nullable,
default, accumulating into one group. -/
def _compare_one_column (tname cname : String) (conn_col : ConnCol)
    (metadata_col : MetaCol) (ctx : AutogenContext) : List ModifyDiff :=
  _compare_type tname cname conn_col metadata_col ctx ++
  _compare_nullable tname cname conn_col metadata_col.nullable ctx ++
  _compare_server_default tname cname conn_col metadata_col ctx

/-- _compare_columns. -/
def _compare_columns (tname : String) (conn_table : List ConnCol)
    (metadata_table : MetaTable) (ctx : AutogenContext) : List Diff :=
  let metadata_cols := metadata_table.cols
  let conn_col_names := pySet (conn_table.map (fun c => c.name))
  let metadata_col_names := pySet (metadata_cols.map (fun c => c.name))
  (metadata_col_names.filter (fun n => !(decide (n ∈ conn_col_names)))).map
    (fun cname => Diff.add_column tname (lookupMetaColD metadata_cols cname)) ++
  (conn_col_names.filter (fun n => !(decide (n ∈ metadata_col_names)))).map
    (fun cname =>
      let r0 := lookupConnColD conn_table cname
      Diff.remove_column tname
        { name := cname, type := r0.type, nullable := r0.nullable,
          server_default := r0.default }) ++
  (metadata_col_names.filter (fun n => decide (n ∈ conn_col_names))).filterMap
    (fun colname =>
      let col_diff := _compare_one_column tname colname
        (lookupConnColD conn_table colname) (lookupMetaColD metadata_cols colname) ctx
      if col_diff.isEmpty then none else some (Diff.group col_diff))

/-- The added-table batch of _compare_tables. -/
def addedTableDiffs (conn_table_names metadata_table_names : List String)
    (md : Metadata) : List Diff :=
  (metadata_table_names.filter (fun tn => !(decide (tn ∈ conn_table_names)))).map
    (fun tn => Diff.add_table (lookupTable md tn))

/-- The removed-table batch of _compare_tables (each removed table is
reflected on demand). -/
def removedTableDiffs (conn_table_names metadata_table_names : List String)
    (insp : Inspector) : List Diff :=
  (conn_table_names.filter (fun tn => !(decide (tn ∈ metadata_table_names)))).map
    (fun tn => Diff.remove_table (reflectTable insp tn))

/-- The tables present on both sides, visited in Python sorted order. -/
def existingTablesSorted (conn_table_names metadata_table_names : List String) :
    List String :=
  sortStrings (conn_table_names.filter (fun tn => decide (tn ∈ metadata_table_names)))

/-- The column-comparison batch of _compare_tables. -/
def columnPhaseDiffs (conn_table_names metadata_table_names : List String)
    (insp : Inspector) (md : Metadata) (ctx : AutogenContext) : List Diff :=
  (existingTablesSorted conn_table_names metadata_table_names).flatMap
    (fun tname =>
      _compare_columns tname (insp.columns tname) (lookupTable md tname) ctx)

/-- _compare_tables: added tables, then removed tables, then per-column
comparison of existing tables in sorted name order. -/
def _compare_tables (conn_table_names metadata_table_names : List String)
    (insp : Inspector) (md : Metadata) (ctx : AutogenContext) : List Diff :=
  addedTableDiffs conn_table_names metadata_table_names md ++
  removedTableDiffs conn_table_names metadata_table_names insp ++
  columnPhaseDiffs conn_table_names metadata_table_names insp md ctx

/-- _produce_net_changes: the observed table-name set with alembic_version
removed, compared against the declared table-name set. -/
def _produce_net_changes (insp : Inspector) (md : Metadata)
    (ctx : AutogenContext) : List Diff :=
  let conn_table_names :=
    (pySet insp.table_names).filter (fun tn => !(tn == "alembic_version"))
  let metadata_table_names := pySet (md.tables.map (fun t => t.name))
  _compare_tables conn_table_names metadata_table_names insp md ctx

/-!  Command production. -/

/-- The keyword dictionary accumulated by _invoke_modify_command and then
passed to _modify_col; an absent entry is an absent dict key (which
_modify_col replaces by its sentinel default). -/
structure AlterKw where
  type_ : Option ColType
  nullable : Option (Option Bool)
  server_default : Option (Option SDefault)
  existing_type : Option ColType
  existing_nullable : Option (Option Bool)
  existing_server_default : Option (Option SDefault)
deriving DecidableEq

def emptyAlterKw : AlterKw :=
  { type_ := none, nullable := none, server_default := none,
    existing_type := none, existing_nullable := none,
    existing_server_default := none }

/-- dict.setdefault for one key: only writes when the key is absent. -/
def pySetdefault {α : Type} (cur v : Option α) : Option α :=
  match v with
  | none => cur
  | some x => if cur.isSome then cur else some x

/-- The loop over the three existing keys of the keyword dictionary of a diff,
each merged with setdefault. -/
def setdefaultExisting (kw : AlterKw) (dkw : DiffKw) : AlterKw :=
  { kw with
    existing_type := pySetdefault kw.existing_type dkw.existing_type
    existing_nullable := pySetdefault kw.existing_nullable dkw.existing_nullable
    existing_server_default :=
      pySetdefault kw.existing_server_default dkw.existing_server_default }

/-- One iteration of the merge loop of _invoke_modify_command: merge the
existing keys of the diff with setdefault, then overwrite the new-value key and
the old-value key picked by the direction (on upgrade the new key takes
the declared value and the old key the observed value; on downgrade they
swap). -/
def applyModifyDiff (updown : String) (kw : AlterKw) (d : ModifyDiff) : AlterKw :=
  let kw := setdefaultExisting kw d.diffKw
  match d with
  | ModifyDiff.type _ _ _ _ o n =>
    if updown == "upgrade" then { kw with type_ := some n, existing_type := some o }
    else { kw with type_ := some o, existing_type := some n }
  | ModifyDiff.nullable _ _ _ _ o n =>
    if updown == "upgrade" then
      { kw with nullable := some n, existing_nullable := some o }
    else { kw with nullable := some o, existing_nullable := some n }
  | ModifyDiff.dflt _ _ _ _ o n =>
    if updown == "upgrade" then
      { kw with server_default := some n, existing_server_default := some o }
    else { kw with server_default := some o, existing_server_default := some n }

/-- The merged keyword dictionary of a composite group, after the final
pops: a present nullable key removes existing_nullable, a present
server_default key removes existing_server_default. -/
def mergedAlterKw (updown : String) (ds : List ModifyDiff) : AlterKw :=
  let kw := ds.foldl (fun kw d => applyModifyDiff updown kw d) emptyAlterKw
  let kw := if kw.nullable.isSome then { kw with existing_nullable := none } else kw
  if kw.server_default.isSome then { kw with existing_server_default := none } else kw

/-- The keyword argument lines appended by _modify_col, in source order:
existing_type always; server_default when the key was passed; type_ when
its value is not None; nullable and existing_nullable when their values
are not None; existing_server_default when its value is truthy. -/
def alterArglines (kw : AlterKw) (ctx : AutogenContext) : List (String × String) :=
  let sqla := _sqlalchemy_autogenerate_pfx ctx
  [("existing_type", _repr_type sqla kw.existing_type ctx)] ++
  (match kw.server_default with
   | some d => [("server_default", optStr (_render_server_default d ctx))]
   | none => []) ++
  (match kw.type_ with
   | some t => [("type_", _repr_type sqla (some t) ctx)]
   | none => []) ++
  (match kw.nullable with
   | some (some b) => [("nullable", pyReprBool b)]
   | _ => []) ++
  (match kw.existing_nullable with
   | some (some b) => [("existing_nullable", pyReprBool b)]
   | _ => []) ++
  (match kw.existing_server_default with
   | some d =>
     if pyTruthyDefaultOpt d then
       [("existing_server_default", optStr (_render_server_default d ctx))]
     else []
   | none => [])

/-- The keyword names appearing in the rendered alter_column call, i.e.
the first components of alterArglines (stated separately so that it
depends on the keyword dictionary alone). -/
def alterFieldNames (kw : AlterKw) : List String :=
  ["existing_type"] ++
  (if kw.server_default.isSome then ["server_default"] else []) ++
  (if kw.type_.isSome then ["type_"] else []) ++
  (match kw.nullable with
   | some (some _) => ["nullable"]
   | _ => []) ++
  (match kw.existing_nullable with
   | some (some _) => ["existing_nullable"]
   | _ => []) ++
  (match kw.existing_server_default with
   | some d => if pyTruthyDefaultOpt d then ["existing_server_default"] else []
   | none => [])

/-- _modify_col: the rendered alter_column call text. -/
def _modify_col (tname cname : String) (ctx : AutogenContext) (kw : AlterKw) : String :=
  let indentStr := "           "
  _alembic_autogenerate_pfx ctx ++ "alter_column(" ++ pyRepr tname ++ ", " ++
    pyRepr cname ++
    String.join ((alterArglines kw ctx).map
      (fun p => ", \n" ++ indentStr ++ p.1 ++ "=" ++ p.2)) ++ ")"

/-- _invoke_modify_command: take table and column name from the
first diff of the group, merge the group into one keyword dictionary and render one
alter_column call.  The source indexes the first element directly (an
empty group never occurs there); an empty group renders nothing. -/
def _invoke_modify_command (updown : String) (ds : List ModifyDiff)
    (ctx : AutogenContext) : String :=
  match ds with
  | [] => ""
  | d0 :: _ => _modify_col d0.tname d0.cname ctx (mergedAlterKw updown ds)

/-- _invoke_adddrop_command: the four-way dispatch of structural diffs.
The add renderer is used for upgrade of an add diff and downgrade of a
remove diff; the drop renderer otherwise. -/
def _invoke_adddrop_command (updown : String) (args : Diff)
    (ctx : AutogenContext) : String :=
  let adddrop := args.adddropParts.1
  let use_add := (updown == "upgrade" && adddrop == "add") ||
                 (updown == "downgrade" && adddrop == "remove")
  match args with
  | Diff.add_table t => if use_add then _add_table t ctx else _drop_table t ctx
  | Diff.remove_table t => if use_add then _add_table t ctx else _drop_table t ctx
  | Diff.add_column tn c => if use_add then _add_column tn c ctx else _drop_column tn c ctx
  | Diff.remove_column tn c => if use_add then _add_column tn c ctx else _drop_column tn c ctx
  | Diff.group _ => ""

/-- _invoke_command: tuples (structural diffs) go to the add/drop
dispatcher, lists (composite groups) to the modify dispatcher. -/
def _invoke_command (updown : String) (args : Diff) (ctx : AutogenContext) : String :=
  match args with
  | Diff.group ds => _invoke_modify_command updown ds ctx
  | d => _invoke_adddrop_command updown d ctx

/-- _produce_upgrade_commands. -/
def _produce_upgrade_commands (diffs : List Diff) (ctx : AutogenContext) : String :=
  let buf := diffs.map (fun diff => _invoke_command "upgrade" diff ctx)
  let buf := if buf.isEmpty then ["pass"] else buf
  String.intercalate "\n" buf

/-- _produce_downgrade_commands. -/
def _produce_downgrade_commands (diffs : List Diff) (ctx : AutogenContext) : String :=
  let buf := diffs.map (fun diff => _invoke_command "downgrade" diff ctx)
  let buf := if buf.isEmpty then ["pass"] else buf
  String.intercalate "\n" buf

/-- _indent: prepend the banner, append the footer, indent every line by
four spaces and strip surrounding whitespace. -/
def _indent (text : String) : String :=
  let text := "### commands auto generated by Alembic - please adjust! ###\n" ++ text
  let text := text ++ "\n### end Alembic commands ###"
  (String.intercalate "\n" ((text.splitOn "\n").map (fun l => "    " ++ l))).trim

/-- The opts dictionary entries the module reads. -/
structure Opts where
  target_metadata : Option Metadata
  upgrade_token : String
  downgrade_token : String
  sqlalchemy_module_pfx : Option String
  alembic_module_pfx : Option String
deriving DecidableEq

/-- The environment/migration context handed to the entry point: options,
the inspector obtained from the bound connection, the location of the
environment script (used in the error message) and the two dialect
comparison predicates reached through the context. -/
structure EnvContext where
  opts : Opts
  inspector : Inspector
  env_py_location : String
  compare_type : ConnCol → MetaCol → Bool
  compare_server_default : ConnCol → MetaCol → Option String → Bool

def mkAutogenContext (c : EnvContext) : AutogenContext :=
  { sqlalchemy_module_pfx := c.opts.sqlalchemy_module_pfx
    alembic_module_pfx := c.opts.alembic_module_pfx
    compare_type := c.compare_type
    compare_server_default := c.compare_server_default }

/-- The CommandError message raised when no target metadata is provided. -/
def autogenErrorMsg (c : EnvContext) : String :=
  "Can't proceed with --autogenerate option; environment script " ++
    c.env_py_location ++ " does not provide a MetaData object to the context."

/-- The template_args entries filled in by the entry point. -/
structure TemplateArgs where
  upgrade_key : String
  upgrade_cmds : String
  downgrade_key : String
  downgrade_cmds : String
  imports : String
deriving DecidableEq

/-- produce_migration_diffs: fail with a CommandError when the declared
schema source is missing, otherwise compute the diff list once and render
both command sequences. -/
def produce_migration_diffs (context : EnvContext) (imports : List String) :
    Except String TemplateArgs :=
  match context.opts.target_metadata with
  | none => Except.error (autogenErrorMsg context)
  | some metadata =>
    let autogen_context := mkAutogenContext context
    let diffs := _produce_net_changes context.inspector metadata autogen_context
    Except.ok
      { upgrade_key := context.opts.upgrade_token
        upgrade_cmds := _indent (_produce_upgrade_commands diffs autogen_context)
        downgrade_key := context.opts.downgrade_token
        downgrade_cmds := _indent (_produce_downgrade_commands diffs autogen_context)
        imports := String.intercalate "\n" (sortStrings imports) }

/-! Concrete sample schemas, columns and contexts used by the witness and
counterexample theorems below. -/

def intType : ColType :=
  { reprStr := "Integer()", module := "sqlalchemy.types", isNullAffinity := false }

def strType : ColType :=
  { reprStr := "String()", module := "sqlalchemy.types", isNullAffinity := false }

def nullType : ColType :=
  { reprStr := "NullType()", module := "sqlalchemy.types", isNullAffinity := true }

def ctx0 : AutogenContext :=
  { sqlalchemy_module_pfx := some "sa.", alembic_module_pfx := some "op."
    compare_type := fun _ _ => false
    compare_server_default := fun _ _ _ => false }

def connN : ConnCol :=
  { name := "c", type := intType, nullable := some true, default := none }

def metaN : MetaCol :=
  { name := "c", type := intType, nullable := some false, server_default := none }

def ctxT : AutogenContext :=
  { sqlalchemy_module_pfx := some "sa.", alembic_module_pfx := some "op."
    compare_type := fun _ _ => true
    compare_server_default := fun _ _ _ => false }

def connC : ConnCol :=
  { name := "c", type := intType, nullable := some true,
    default := some (SDefault.clause (ClauseArg.str "x")) }

def metaC : MetaCol :=
  { name := "c", type := strType, nullable := none,
    server_default := some (SDefault.clause (ClauseArg.str "x")) }

def connNullType : ConnCol :=
  { name := "c", type := nullType, nullable := some true, default := none }

def ctxP : AutogenContext :=
  { sqlalchemy_module_pfx := some "sa.", alembic_module_pfx := some "op."
    compare_type := fun _ _ => false
    compare_server_default := fun _ _ _ => true }

def insp0 : Inspector :=
  { table_names := ["alembic_version", "users"]
    columns := fun _ => []
    reflectCols := fun _ => []
    reflectConstraints := fun _ => [] }

def opts0 : Opts :=
  { target_metadata := some { tables := [] }
    upgrade_token := "upgrades", downgrade_token := "downgrades"
    sqlalchemy_module_pfx := some "sa.", alembic_module_pfx := some "op." }

def optsNone : Opts :=
  { target_metadata := none
    upgrade_token := "upgrades", downgrade_token := "downgrades"
    sqlalchemy_module_pfx := some "sa.", alembic_module_pfx := some "op." }

def env0 : EnvContext :=
  { opts := opts0, inspector := insp0, env_py_location := "env.py"
    compare_type := fun _ _ => false
    compare_server_default := fun _ _ _ => false }

def envNone : EnvContext :=
  { opts := optsNone, inspector := insp0, env_py_location := "env.py"
    compare_type := fun _ _ => false
    compare_server_default := fun _ _ _ => false }

/-! General lemmas about the embedded operations. -/

theorem alterArglines_fst (kw : AlterKw) (ctx : AutogenContext) :
    (alterArglines kw ctx).map Prod.fst = alterFieldNames kw := by
  unfold alterArglines alterFieldNames
  cases kw.server_default <;> cases kw.type_ <;>
    rcases kw.nullable with _ | (_ | b) <;>
    rcases kw.existing_nullable with _ | (_ | b2) <;>
    cases kw.existing_server_default <;>
    simp <;> split <;> simp

theorem mem_compare_type_eq {tname cname : String} {conn : ConnCol} {metaCol : MetaCol}
    {ctx : AutogenContext} {d : ModifyDiff}
    (hd : d ∈ _compare_type tname cname conn metaCol ctx) :
    d = ModifyDiff.type tname cname conn.nullable conn.default conn.type metaCol.type ∧
      ctx.compare_type conn metaCol = true := by
  by_cases h1 : conn.type.isNullAffinity = true <;>
    by_cases h2 : metaCol.type.isNullAffinity = true <;>
    by_cases h3 : ctx.compare_type conn metaCol = true <;>
    simp [_compare_type, h1, h2, h3] at hd
  exact ⟨hd, h3⟩

theorem mem_compare_nullable_eq {tname cname : String} {conn : ConnCol}
    {mnull : Option Bool} {ctx : AutogenContext} {d : ModifyDiff}
    (hd : d ∈ _compare_nullable tname cname conn mnull ctx) :
    d = ModifyDiff.nullable tname cname conn.type conn.default conn.nullable mnull := by
  by_cases h : conn.nullable = mnull
  · simp [_compare_nullable, h] at hd
  · simp [_compare_nullable, h] at hd
    exact hd

theorem mem_compare_server_default_eq {tname cname : String} {conn : ConnCol}
    {metaCol : MetaCol} {ctx : AutogenContext} {d : ModifyDiff}
    (hd : d ∈ _compare_server_default tname cname conn metaCol ctx) :
    d = ModifyDiff.dflt tname cname conn.nullable conn.type conn.default
        metaCol.server_default ∧
      (conn.default ≠ none ∨ metaCol.server_default ≠ none) ∧
      ctx.compare_server_default conn metaCol
        (_render_server_default metaCol.server_default ctx) = true := by
  by_cases hp : ctx.compare_server_default conn metaCol
      (_render_server_default metaCol.server_default ctx) = true <;>
    cases hc : conn.default <;> cases hm : metaCol.server_default <;>
    simp [_compare_server_default, hc, hm, hp] at hd <;>
    simp [hd, hc, hm, hp]

theorem applyModifyDiff_nullable_isSome (u : String) (kw : AlterKw) (d : ModifyDiff)
    (h : kw.nullable.isSome = true) :
    ((applyModifyDiff u kw d).nullable).isSome = true := by
  cases d <;> simp only [applyModifyDiff] <;> split <;>
    simp [setdefaultExisting, h]

theorem applyModifyDiff_nullable_isSome_of (u : String) (kw : AlterKw)
    (d : ModifyDiff) (h : d.isNullable = true) :
    ((applyModifyDiff u kw d).nullable).isSome = true := by
  cases d with
  | type tn cn en esd o n => simp [ModifyDiff.isNullable] at h
  | dflt tn cn en et o n => simp [ModifyDiff.isNullable] at h
  | nullable tn cn et esd o n =>
    simp only [applyModifyDiff]
    split <;> simp

theorem applyModifyDiff_server_default_isSome (u : String) (kw : AlterKw)
    (d : ModifyDiff) (h : kw.server_default.isSome = true) :
    ((applyModifyDiff u kw d).server_default).isSome = true := by
  cases d <;> simp only [applyModifyDiff] <;> split <;>
    simp [setdefaultExisting, h]

theorem applyModifyDiff_server_default_isSome_of (u : String) (kw : AlterKw)
    (d : ModifyDiff) (h : d.isDefault = true) :
    ((applyModifyDiff u kw d).server_default).isSome = true := by
  cases d with
  | type tn cn en esd o n => simp [ModifyDiff.isDefault] at h
  | nullable tn cn et esd o n => simp [ModifyDiff.isDefault] at h
  | dflt tn cn en et o n =>
    simp only [applyModifyDiff]
    split <;> simp

theorem foldl_nullable_isSome (u : String) (ds : List ModifyDiff) :
    ∀ kw : AlterKw, kw.nullable.isSome = true →
      ((ds.foldl (fun kw d => applyModifyDiff u kw d) kw).nullable).isSome = true := by
  induction ds with
  | nil => intro kw h; simpa using h
  | cons d ds ih =>
    intro kw h
    rw [List.foldl_cons]
    exact ih _ (applyModifyDiff_nullable_isSome u kw d h)

theorem foldl_server_default_isSome (u : String) (ds : List ModifyDiff) :
    ∀ kw : AlterKw, kw.server_default.isSome = true →
      ((ds.foldl (fun kw d => applyModifyDiff u kw d) kw).server_default).isSome = true := by
  induction ds with
  | nil => intro kw h; simpa using h
  | cons d ds ih =>
    intro kw h
    rw [List.foldl_cons]
    exact ih _ (applyModifyDiff_server_default_isSome u kw d h)

theorem mergedAlterKw_existing_nullable_none (u : String) (ds : List ModifyDiff)
    (h : ∃ d ∈ ds, d.isNullable = true) :
    (mergedAlterKw u ds).existing_nullable = none := by
  obtain ⟨d, hm, hd⟩ := h
  obtain ⟨s, t, rfl⟩ := List.append_of_mem hm
  have hfold : (((s ++ d :: t).foldl (fun kw d => applyModifyDiff u kw d)
      emptyAlterKw).nullable).isSome = true := by
    rw [List.foldl_append, List.foldl_cons]
    exact foldl_nullable_isSome u t _ (applyModifyDiff_nullable_isSome_of u _ d hd)
  simp only [mergedAlterKw]
  rw [if_pos hfold]
  split <;> rfl

theorem mergedAlterKw_existing_server_default_none (u : String)
    (ds : List ModifyDiff) (h : ∃ d ∈ ds, d.isDefault = true) :
    (mergedAlterKw u ds).existing_server_default = none := by
  obtain ⟨d, hm, hd⟩ := h
  obtain ⟨s, t, rfl⟩ := List.append_of_mem hm
  have hfold : (((s ++ d :: t).foldl (fun kw d => applyModifyDiff u kw d)
      emptyAlterKw).server_default).isSome = true := by
    rw [List.foldl_append, List.foldl_cons]
    exact foldl_server_default_isSome u t _
      (applyModifyDiff_server_default_isSome_of u _ d hd)
  simp only [mergedAlterKw]
  by_cases hnb : (((s ++ d :: t).foldl (fun kw d => applyModifyDiff u kw d)
      emptyAlterKw).nullable).isSome = true
  · rw [if_pos hnb]
    rw [if_pos (show (({ (s ++ d :: t).foldl (fun kw d => applyModifyDiff u kw d)
        emptyAlterKw with existing_nullable := none } : AlterKw).server_default).isSome =
        true from hfold)]
  · rw [if_neg hnb, if_pos hfold]

theorem lookupLast_nameOf {α : Type} (nameOf : α → String) (l : List α) (n : String) :
    ∀ x, lookupLast nameOf l n = some x → nameOf x = n := by
  unfold lookupLast
  suffices h : ∀ (acc : Option α), (∀ x, acc = some x → nameOf x = n) →
      ∀ x, l.foldl (fun acc x => if nameOf x == n then some x else acc) acc = some x →
        nameOf x = n by
    exact h none (by intro x hx; cases hx)
  induction l with
  | nil => intro acc hacc x hx; exact hacc x hx
  | cons y l ih =>
    intro acc hacc x hx
    rw [List.foldl_cons] at hx
    refine ih _ ?_ x hx
    intro z hz
    by_cases hy : (nameOf y == n) = true
    · rw [if_pos hy] at hz
      cases hz
      exact eq_of_beq hy
    · rw [if_neg hy] at hz
      exact hacc z hz

theorem lookupTable_name (md : Metadata) (n : String) : (lookupTable md n).name = n := by
  unfold lookupTable
  cases h : lookupLast (fun t => t.name) md.tables n with
  | none => rfl
  | some t =>
    simp only [Option.getD_some]
    exact lookupLast_nameOf (fun t => t.name) md.tables n t h

theorem tname_of_mem_compare_one {tname cname : String} {conn : ConnCol}
    {metaCol : MetaCol} {ctx : AutogenContext} {d : ModifyDiff}
    (hd : d ∈ _compare_one_column tname cname conn metaCol ctx) : d.tname = tname := by
  unfold _compare_one_column at hd
  simp only [List.mem_append] at hd
  rcases hd with (hd | hd) | hd
  · rw [(mem_compare_type_eq hd).1]; rfl
  · rw [mem_compare_nullable_eq hd]; rfl
  · rw [(mem_compare_server_default_eq hd).1]; rfl

theorem compare_columns_shape {tname : String} {ct : List ConnCol} {mt : MetaTable}
    {ctx : AutogenContext} {d : Diff} (hd : d ∈ _compare_columns tname ct mt ctx) :
    (∀ n, Diff.isRemovalOf n d = false) ∧
      (∀ m, Diff.mentions m d = true → m = tname) := by
  simp only [_compare_columns, List.mem_append] at hd
  rcases hd with (hd | hd) | hd
  · obtain ⟨cn, hcn, rfl⟩ := List.mem_map.mp hd
    refine ⟨fun n => rfl, fun m hm => ?_⟩
    simp only [Diff.mentions] at hm
    exact (eq_of_beq hm).symm
  · obtain ⟨cn, hcn, rfl⟩ := List.mem_map.mp hd
    refine ⟨fun n => rfl, fun m hm => ?_⟩
    simp only [Diff.mentions] at hm
    exact (eq_of_beq hm).symm
  · obtain ⟨cn, hcn, hsome⟩ := List.mem_filterMap.mp hd
    split at hsome
    · cases hsome
    · cases hsome
      refine ⟨fun n => rfl, fun m hm => ?_⟩
      simp only [Diff.mentions, List.any_eq_true] at hm
      obtain ⟨x, hx, hbeq⟩ := hm
      rw [← tname_of_mem_compare_one hx]
      exact (eq_of_beq hbeq).symm

/-! Claim theorems. -/

/-- Claim C1 (corrected): for a composite group in which type and nullable
changed but the default did not, the rendered alter_column call contains the
type_ and existing_type fields with a non-null existing_type, and omits
existing_nullable and server_default; it contains the nullable field provided
the new nullable value selected by the direction is not None, and it omits
existing_server_default provided the observed default carried by the group is
absent (falsy).  In general, a group containing a modify_nullable diff merges
to a call without existing_nullable, and a group containing a modify_default
diff merges to a call without existing_server_default. -/
theorem c1_modify_merge
    (tname cname : String) (en oldN newN : Option Bool) (esd : Option SDefault)
    (oldT newT et : ColType) (updown : String) (ctx : AutogenContext)
    (dsN dsD : List ModifyDiff) (uN uD : String)
    (hup : updown = "upgrade" ∨ updown = "downgrade")
    (hesd : pyTruthyDefaultOpt esd = false)
    (hnewU : updown = "upgrade" → newN ≠ none)
    (hnewD : updown = "downgrade" → oldN ≠ none)
    (hN : ∃ d ∈ dsN, d.isNullable = true)
    (hD : ∃ d ∈ dsD, d.isDefault = true) :
    "type_" ∈ alterFieldNames (mergedAlterKw updown
      [ModifyDiff.type tname cname en esd oldT newT,
       ModifyDiff.nullable tname cname et esd oldN newN]) ∧
    "nullable" ∈ alterFieldNames (mergedAlterKw updown
      [ModifyDiff.type tname cname en esd oldT newT,
       ModifyDiff.nullable tname cname et esd oldN newN]) ∧
    "existing_type" ∈ alterFieldNames (mergedAlterKw updown
      [ModifyDiff.type tname cname en esd oldT newT,
       ModifyDiff.nullable tname cname et esd oldN newN]) ∧
    (mergedAlterKw updown
      [ModifyDiff.type tname cname en esd oldT newT,
       ModifyDiff.nullable tname cname et esd oldN newN]).existing_type.isSome = true ∧
    "existing_nullable" ∉ alterFieldNames (mergedAlterKw updown
      [ModifyDiff.type tname cname en esd oldT newT,
       ModifyDiff.nullable tname cname et esd oldN newN]) ∧
    "server_default" ∉ alterFieldNames (mergedAlterKw updown
      [ModifyDiff.type tname cname en esd oldT newT,
       ModifyDiff.nullable tname cname et esd oldN newN]) ∧
    "existing_server_default" ∉ alterFieldNames (mergedAlterKw updown
      [ModifyDiff.type tname cname en esd oldT newT,
       ModifyDiff.nullable tname cname et esd oldN newN]) ∧
    (alterArglines (mergedAlterKw updown
      [ModifyDiff.type tname cname en esd oldT newT,
       ModifyDiff.nullable tname cname et esd oldN newN]) ctx).map Prod.fst =
      alterFieldNames (mergedAlterKw updown
        [ModifyDiff.type tname cname en esd oldT newT,
         ModifyDiff.nullable tname cname et esd oldN newN]) ∧
    (mergedAlterKw uN dsN).existing_nullable = none ∧
    (mergedAlterKw uD dsD).existing_server_default = none := by
  rcases hup with rfl | rfl
  · obtain ⟨b, rfl⟩ := Option.ne_none_iff_exists'.mp (hnewU rfl)
    refine ⟨?_, ?_, ?_, ?_, ?_, ?_, ?_, alterArglines_fst _ _,
      mergedAlterKw_existing_nullable_none uN dsN hN,
      mergedAlterKw_existing_server_default_none uD dsD hD⟩ <;>
    simp [mergedAlterKw, applyModifyDiff, setdefaultExisting, pySetdefault,
      emptyAlterKw, ModifyDiff.diffKw, alterFieldNames, hesd]
  · obtain ⟨b, rfl⟩ := Option.ne_none_iff_exists'.mp (hnewD rfl)
    refine ⟨?_, ?_, ?_, ?_, ?_, ?_, ?_, alterArglines_fst _ _,
      mergedAlterKw_existing_nullable_none uN dsN hN,
      mergedAlterKw_existing_server_default_none uD dsD hD⟩ <;>
    simp [mergedAlterKw, applyModifyDiff, setdefaultExisting, pySetdefault,
      emptyAlterKw, ModifyDiff.diffKw, alterFieldNames, hesd]

/-- Counterexample to claim C1 as stated: for the concrete column whose type
and nullable changed while its truthy server default did not, the rendered
call retains existing_server_default, and because the declared nullable flag
is None the call has no nullable field. -/
theorem c1_counterexample :
    _compare_one_column "t" "c" connC metaC ctxT =
      [ModifyDiff.type "t" "c" (some true)
         (some (SDefault.clause (ClauseArg.str "x"))) intType strType,
       ModifyDiff.nullable "t" "c" intType
         (some (SDefault.clause (ClauseArg.str "x"))) (some true) none] ∧
    "existing_server_default" ∈ alterFieldNames
      (mergedAlterKw "upgrade" (_compare_one_column "t" "c" connC metaC ctxT)) ∧
    "nullable" ∉ alterFieldNames
      (mergedAlterKw "upgrade" (_compare_one_column "t" "c" connC metaC ctxT)) ∧
    "existing_server_default" ∈ (alterArglines
      (mergedAlterKw "upgrade" (_compare_one_column "t" "c" connC metaC ctxT))
      ctxT).map Prod.fst ∧
    "nullable" ∉ (alterArglines
      (mergedAlterKw "upgrade" (_compare_one_column "t" "c" connC metaC ctxT))
      ctxT).map Prod.fst := by
  refine ⟨by decide, by decide, by decide, ?_, ?_⟩ <;>
    rw [alterArglines_fst] <;> decide

theorem c1_witness :
    "type_" ∈ alterFieldNames (mergedAlterKw "upgrade"
      [ModifyDiff.type "t" "c" (some true) none intType strType,
       ModifyDiff.nullable "t" "c" intType none (some true) (some false)]) ∧
    "nullable" ∈ alterFieldNames (mergedAlterKw "upgrade"
      [ModifyDiff.type "t" "c" (some true) none intType strType,
       ModifyDiff.nullable "t" "c" intType none (some true) (some false)]) ∧
    "existing_type" ∈ alterFieldNames (mergedAlterKw "upgrade"
      [ModifyDiff.type "t" "c" (some true) none intType strType,
       ModifyDiff.nullable "t" "c" intType none (some true) (some false)]) ∧
    (mergedAlterKw "upgrade"
      [ModifyDiff.type "t" "c" (some true) none intType strType,
       ModifyDiff.nullable "t" "c" intType none (some true)
         (some false)]).existing_type.isSome = true ∧
    "existing_nullable" ∉ alterFieldNames (mergedAlterKw "upgrade"
      [ModifyDiff.type "t" "c" (some true) none intType strType,
       ModifyDiff.nullable "t" "c" intType none (some true) (some false)]) ∧
    "server_default" ∉ alterFieldNames (mergedAlterKw "upgrade"
      [ModifyDiff.type "t" "c" (some true) none intType strType,
       ModifyDiff.nullable "t" "c" intType none (some true) (some false)]) ∧
    "existing_server_default" ∉ alterFieldNames (mergedAlterKw "upgrade"
      [ModifyDiff.type "t" "c" (some true) none intType strType,
       ModifyDiff.nullable "t" "c" intType none (some true) (some false)]) ∧
    (alterArglines (mergedAlterKw "upgrade"
      [ModifyDiff.type "t" "c" (some true) none intType strType,
       ModifyDiff.nullable "t" "c" intType none (some true) (some false)])
      ctx0).map Prod.fst =
      alterFieldNames (mergedAlterKw "upgrade"
        [ModifyDiff.type "t" "c" (some true) none intType strType,
         ModifyDiff.nullable "t" "c" intType none (some true) (some false)]) ∧
    (mergedAlterKw "upgrade"
      [ModifyDiff.nullable "t" "c" intType none (some true)
        (some false)]).existing_nullable = none ∧
    (mergedAlterKw "downgrade"
      [ModifyDiff.dflt "t" "c" (some true) intType none
        (some (SDefault.str "y"))]).existing_server_default = none :=
  c1_modify_merge "t" "c" (some true) (some true) (some false) none
    intType strType intType "upgrade" ctx0
    [ModifyDiff.nullable "t" "c" intType none (some true) (some false)]
    [ModifyDiff.dflt "t" "c" (some true) intType none (some (SDefault.str "y"))]
    "upgrade" "downgrade"
    (Or.inl rfl) (by decide) (fun _ => by decide) (fun h => absurd h (by decide))
    (by decide) (by decide)

/-- Claim C2: the renderer selected for a structural diff obeys the four-way
table: upgrade of an add diff and downgrade of a remove diff call the add
renderer; downgrade of an add diff and upgrade of a remove diff call the drop
renderer, for tables and for columns alike. -/
theorem c2_adddrop_dispatch (t : MetaTable) (tn : String) (c : MetaCol)
    (ctx : AutogenContext) :
    _invoke_adddrop_command "upgrade" (Diff.add_table t) ctx = _add_table t ctx ∧
    _invoke_adddrop_command "downgrade" (Diff.add_table t) ctx = _drop_table t ctx ∧
    _invoke_adddrop_command "upgrade" (Diff.remove_table t) ctx = _drop_table t ctx ∧
    _invoke_adddrop_command "downgrade" (Diff.remove_table t) ctx = _add_table t ctx ∧
    _invoke_adddrop_command "upgrade" (Diff.add_column tn c) ctx = _add_column tn c ctx ∧
    _invoke_adddrop_command "downgrade" (Diff.add_column tn c) ctx = _drop_column tn c ctx ∧
    _invoke_adddrop_command "upgrade" (Diff.remove_column tn c) ctx = _drop_column tn c ctx ∧
    _invoke_adddrop_command "downgrade" (Diff.remove_column tn c) ctx = _add_column tn c ctx :=
  ⟨rfl, rfl, rfl, rfl, rfl, rfl, rfl, rfl⟩

/-- Claim C3: when the type of either side of a column present in both
schemas has unresolved (NullType) affinity, no modify_type diff is emitted for
that column, whatever the type-comparison predicate returns and whatever the
other attribute comparators emit. -/
theorem c3_unresolved_type_no_diff (tname cname : String) (conn : ConnCol)
    (metaCol : MetaCol) (ctx : AutogenContext) (d : ModifyDiff)
    (h : conn.type.isNullAffinity = true ∨ metaCol.type.isNullAffinity = true)
    (hd : d ∈ _compare_one_column tname cname conn metaCol ctx) :
    _compare_type tname cname conn metaCol ctx = [] ∧ d.isType = false := by
  have h1 : _compare_type tname cname conn metaCol ctx = [] := by
    rcases h with h | h <;> simp [_compare_type, h]
  refine ⟨h1, ?_⟩
  unfold _compare_one_column at hd
  rw [h1] at hd
  simp only [List.nil_append, List.mem_append] at hd
  rcases hd with hd | hd
  · rw [mem_compare_nullable_eq hd]; rfl
  · rw [(mem_compare_server_default_eq hd).1]; rfl

theorem c3_witness :
    _compare_type "t" "c" connNullType metaN ctx0 = [] ∧
      (ModifyDiff.nullable "t" "c" nullType none (some true) (some false)).isType = false :=
  c3_unresolved_type_no_diff "t" "c" connNullType metaN ctx0
    (ModifyDiff.nullable "t" "c" nullType none (some true) (some false))
    (Or.inl (by decide)) (by decide)

/-- Claim C4: a modify_nullable diff is emitted iff the observed nullable
flag is not identical to the declared one (None differs from both true and
false), and the emitted diff carries the observed type and observed default as
existing context. -/
theorem c4_nullable_iff (tname cname : String) (conn : ConnCol)
    (mnull : Option Bool) (ctx : AutogenContext) :
    (_compare_nullable tname cname conn mnull ctx ≠ [] ↔ conn.nullable ≠ mnull) ∧
    (conn.nullable ≠ mnull →
      _compare_nullable tname cname conn mnull ctx =
        [ModifyDiff.nullable tname cname conn.type conn.default conn.nullable mnull]) := by
  by_cases h : conn.nullable = mnull <;> simp [_compare_nullable, h]

theorem c4_witness :
    (_compare_nullable "t" "c" connN (some false) ctx0 ≠ []) ∧
      _compare_nullable "t" "c" connN (some false) ctx0 =
        [ModifyDiff.nullable "t" "c" intType none (some true) (some false)] :=
  ⟨(c4_nullable_iff "t" "c" connN (some false) ctx0).1.mpr (by decide),
   (c4_nullable_iff "t" "c" connN (some false) ctx0).2 (by decide)⟩

/-- Claim C5: when both sides have no default the default comparator emits
nothing, for every choice of comparison predicate; any emitted modify_default
diff requires a default on at least one side and a predicate that reported a
difference on the rendered declared default. -/
theorem c5_default_short_circuit (tname cname : String) (conn : ConnCol)
    (metaCol : MetaCol) (ctx ctx2 : AutogenContext) (conn2 : ConnCol)
    (meta2 : MetaCol) (ctx3 : AutogenContext) (d : ModifyDiff)
    (hc : conn.default = none) (hm : metaCol.server_default = none)
    (hd : d ∈ _compare_server_default tname cname conn2 meta2 ctx3) :
    _compare_server_default tname cname conn metaCol ctx = [] ∧
    _compare_server_default tname cname conn metaCol ctx =
      _compare_server_default tname cname conn metaCol ctx2 ∧
    (conn2.default ≠ none ∨ meta2.server_default ≠ none) ∧
    ctx3.compare_server_default conn2 meta2
      (_render_server_default meta2.server_default ctx3) = true := by
  have e1 : _compare_server_default tname cname conn metaCol ctx = [] := by
    simp [_compare_server_default, hc, hm]
  have e2 : _compare_server_default tname cname conn metaCol ctx2 = [] := by
    simp [_compare_server_default, hc, hm]
  obtain ⟨-, h2, h3⟩ := mem_compare_server_default_eq hd
  exact ⟨e1, e1.trans e2.symm, h2, h3⟩

theorem c5_witness :
    _compare_server_default "t" "c" connN metaN ctx0 = [] ∧
    _compare_server_default "t" "c" connN metaN ctx0 =
      _compare_server_default "t" "c" connN metaN ctxP ∧
    (connC.default ≠ none ∨ metaC.server_default ≠ none) ∧
    ctxP.compare_server_default connC metaC
      (_render_server_default metaC.server_default ctxP) = true :=
  c5_default_short_circuit "t" "c" connN metaN ctx0 ctxP connC metaC ctxP
    (ModifyDiff.dflt "t" "c" (some true) intType
      (some (SDefault.clause (ClauseArg.str "x")))
      (some (SDefault.clause (ClauseArg.str "x"))))
    (by decide) (by decide) (by decide)

/-- Claim C6: the whole run is a pure function of its inputs, so two runs
over identical declared and observed schemas produce identical diff lists and
rendered command sequences; and the per-column comparison phase visits the
tables present on both sides in sorted name order. -/
theorem c6_deterministic_and_sorted (e1 e2 : EnvContext) (im1 im2 : List String)
    (conn meta : List String) (he : e1 = e2) (hi : im1 = im2) :
    produce_migration_diffs e1 im1 = produce_migration_diffs e2 im2 ∧
    List.Sorted (fun a b : String => a ≤ b) (existingTablesSorted conn meta) := by
  subst he
  subst hi
  exact ⟨rfl, List.sorted_insertionSort _ _⟩

theorem c6_witness :
    produce_migration_diffs env0 [] = produce_migration_diffs env0 [] ∧
    List.Sorted (fun a b : String => a ≤ b)
      (existingTablesSorted ["b", "a"] ["a", "b"]) :=
  c6_deterministic_and_sorted env0 env0 [] [] ["b", "a"] ["a", "b"] rfl rfl

/-- Claim C7: each run renders exactly two command sequences, upgrade and
downgrade, each with one rendered command per diff in diff-list order, and
each collapsing to the explicit no-op marker pass when the diff list is
empty. -/
theorem c7_two_sequences (diffs : List Diff) (ctx : AutogenContext) :
    (_produce_upgrade_commands diffs ctx =
      String.intercalate "\n"
        (if diffs.isEmpty then ["pass"]
         else diffs.map (fun d => _invoke_command "upgrade" d ctx))) ∧
    (_produce_downgrade_commands diffs ctx =
      String.intercalate "\n"
        (if diffs.isEmpty then ["pass"]
         else diffs.map (fun d => _invoke_command "downgrade" d ctx))) ∧
    (diffs.map (fun d => _invoke_command "upgrade" d ctx)).length = diffs.length ∧
    (diffs.map (fun d => _invoke_command "downgrade" d ctx)).length = diffs.length ∧
    (diffs = [] →
      _produce_upgrade_commands diffs ctx = "pass" ∧
      _produce_downgrade_commands diffs ctx = "pass") := by
  refine ⟨?_, ?_, by simp, by simp, ?_⟩
  · cases diffs <;> simp [_produce_upgrade_commands]
  · cases diffs <;> simp [_produce_downgrade_commands]
  · rintro rfl
    exact ⟨rfl, rfl⟩

theorem c7_witness :
    _produce_upgrade_commands [] ctx0 = "pass" ∧
      _produce_downgrade_commands [] ctx0 = "pass" :=
  (c7_two_sequences [] ctx0).2.2.2.2 rfl

/-- Claim C8: every rendered alter_column call carries an existing_type
argument, whatever the keyword dictionary; and for a nullable-only change the
produced group is a single modify_nullable diff whose merged keyword
dictionary carries existing_type equal to the observed column type in both
the upgrade and the downgrade direction. -/
theorem c8_existing_type_mandatory (kw : AlterKw) (ctx : AutogenContext)
    (tname cname : String) (conn : ConnCol) (metaCol : MetaCol)
    (ctx2 : AutogenContext)
    (hnull : conn.nullable ≠ metaCol.nullable)
    (htype : _compare_type tname cname conn metaCol ctx2 = [])
    (hdef : _compare_server_default tname cname conn metaCol ctx2 = []) :
    "existing_type" ∈ alterFieldNames kw ∧
    "existing_type" ∈ (alterArglines kw ctx).map Prod.fst ∧
    _compare_one_column tname cname conn metaCol ctx2 =
      [ModifyDiff.nullable tname cname conn.type conn.default
        conn.nullable metaCol.nullable] ∧
    (mergedAlterKw "upgrade"
      (_compare_one_column tname cname conn metaCol ctx2)).existing_type =
        some conn.type ∧
    (mergedAlterKw "downgrade"
      (_compare_one_column tname cname conn metaCol ctx2)).existing_type =
        some conn.type := by
  have hone : _compare_one_column tname cname conn metaCol ctx2 =
      [ModifyDiff.nullable tname cname conn.type conn.default
        conn.nullable metaCol.nullable] := by
    unfold _compare_one_column
    rw [htype, hdef]
    simp [_compare_nullable, hnull]
  refine ⟨by simp [alterFieldNames], ?_, hone, ?_, ?_⟩
  · rw [alterArglines_fst]
    simp [alterFieldNames]
  · rw [hone]; rfl
  · rw [hone]; rfl

theorem c8_witness :
    "existing_type" ∈ alterFieldNames emptyAlterKw ∧
    "existing_type" ∈ (alterArglines emptyAlterKw ctx0).map Prod.fst ∧
    _compare_one_column "t" "c" connN metaN ctx0 =
      [ModifyDiff.nullable "t" "c" intType none (some true) (some false)] ∧
    (mergedAlterKw "upgrade"
      (_compare_one_column "t" "c" connN metaN ctx0)).existing_type = some intType ∧
    (mergedAlterKw "downgrade"
      (_compare_one_column "t" "c" connN metaN ctx0)).existing_type = some intType :=
  c8_existing_type_mandatory emptyAlterKw ctx0 "t" "c" connN metaN ctx0
    (by decide) (by decide) (by decide)

/-- Claim C9: with no target metadata the entry point fails with the
CommandError naming the missing MetaData precondition and produces no output;
with a metadata present it returns rendered template arguments. -/
theorem c9_missing_metadata_error (c : EnvContext) (imports : List String) :
    (c.opts.target_metadata = none →
      produce_migration_diffs c imports = Except.error (autogenErrorMsg c)) ∧
    (c.opts.target_metadata ≠ none →
      ∃ out, produce_migration_diffs c imports = Except.ok out) := by
  constructor
  · intro h
    simp only [produce_migration_diffs, h]
  · intro h
    obtain ⟨md, hmd⟩ := Option.ne_none_iff_exists'.mp h
    simp only [produce_migration_diffs, hmd]
    exact ⟨_, rfl⟩

theorem c9_witness :
    produce_migration_diffs envNone [] = Except.error (autogenErrorMsg envNone) ∧
      ∃ out, produce_migration_diffs env0 [] = Except.ok out :=
  ⟨(c9_missing_metadata_error envNone []).1 rfl,
   (c9_missing_metadata_error env0 []).2 (by decide)⟩

/-- Claim C10: the observed table-name set is stripped of alembic_version
before comparison, so no remove_table diff for alembic_version is ever
produced, and when the declared schema does not contain alembic_version no
diff of any kind mentions that table. -/
theorem c10_alembic_version_excluded (insp : Inspector) (md : Metadata)
    (ctx : AutogenContext) :
    (∀ d ∈ _produce_net_changes insp md ctx,
      Diff.isRemovalOf "alembic_version" d = false) ∧
    ("alembic_version" ∉ md.tables.map (fun t => t.name) →
      ∀ d ∈ _produce_net_changes insp md ctx,
        Diff.mentions "alembic_version" d = false) := by
  have hconn : ∀ tn ∈ (pySet insp.table_names).filter
      (fun tn => !(tn == "alembic_version")), tn ≠ "alembic_version" := by
    intro tn h
    have h2 := (List.mem_filter.mp h).2
    simpa using h2
  constructor
  · intro d hd
    simp only [_produce_net_changes, _compare_tables, List.mem_append] at hd
    rcases hd with (hd | hd) | hd
    · simp only [addedTableDiffs] at hd
      obtain ⟨tn, htn, rfl⟩ := List.mem_map.mp hd
      rfl
    · simp only [removedTableDiffs] at hd
      obtain ⟨tn, htn, rfl⟩ := List.mem_map.mp hd
      have hne := hconn tn (List.mem_filter.mp htn).1
      simp [Diff.isRemovalOf, reflectTable, hne]
    · simp only [columnPhaseDiffs, List.mem_flatMap] at hd
      obtain ⟨tn, htn, hdc⟩ := hd
      exact (compare_columns_shape hdc).1 _
  · intro hmeta d hd
    simp only [_produce_net_changes, _compare_tables, List.mem_append] at hd
    rcases hd with (hd | hd) | hd
    · simp only [addedTableDiffs] at hd
      obtain ⟨tn, htn, rfl⟩ := List.mem_map.mp hd
      have htn1 := (List.mem_filter.mp htn).1
      simp only [pySet] at htn1
      have htn2 : tn ∈ md.tables.map (fun t => t.name) := List.mem_dedup.mp htn1
      have hne : tn ≠ "alembic_version" := fun h => hmeta (h ▸ htn2)
      simp [Diff.mentions, lookupTable_name, hne]
    · simp only [removedTableDiffs] at hd
      obtain ⟨tn, htn, rfl⟩ := List.mem_map.mp hd
      have hne := hconn tn (List.mem_filter.mp htn).1
      simp [Diff.mentions, reflectTable, hne]
    · simp only [columnPhaseDiffs, List.mem_flatMap] at hd
      obtain ⟨tn, htn, hdc⟩ := hd
      have htn2 : tn ∈ (pySet insp.table_names).filter
          (fun tn => !(tn == "alembic_version")) := by
        have hp := (List.perm_insertionSort
          (fun a b : String => a ≤ b) _).mem_iff.mp htn
        exact (List.mem_filter.mp hp).1
      have hne := hconn tn htn2
      by_cases hm : Diff.mentions "alembic_version" d = true
      · exact absurd ((compare_columns_shape hdc).2 _ hm).symm hne
      · simpa using hm

theorem c10_witness :
    Diff.isRemovalOf "alembic_version"
      (Diff.remove_table (reflectTable insp0 "users")) = false ∧
    Diff.mentions "alembic_version"
      (Diff.remove_table (reflectTable insp0 "users")) = false :=
  ⟨(c10_alembic_version_excluded insp0 { tables := [] } ctx0).1
      (Diff.remove_table (reflectTable insp0 "users")) (by decide),
   (c10_alembic_version_excluded insp0 { tables := [] } ctx0).2 (by decide)
      (Diff.remove_table (reflectTable insp0 "users")) (by decide)⟩

end Alembic
